import Mathlib

/-!
Verification of the two scripts of the `energy_and_utilities_billing`
repository: a Fetcher (`src/extractor/extract.py`) that downloads a remote
parquet file and prints a 10-row preview plus the column names, and a
Connector (`src/postgres/load.py`) that reads five environment variables,
opens a database connection with them, and immediately closes it.

External effects (the network fetch, the database client) are modelled as
oracle parameters; the scripts' own statements are embedded line by line.
-/

namespace EnergyBilling

/-! ## Fetcher data model (src/extractor/extract.py) -/

/-- A cell value of the tabular dataset: dataset-defined types
(string, number, timestamp) plus a null value. -/
inductive Value where
  | str (s : String)
  | num (n : Int)
  | timestamp (t : Int)
  | null
deriving DecidableEq, Repr

/-- An in-memory tabular dataset as produced by `pd.read_parquet`:
an ordered list of column names and an ordered list of rows. -/
structure DataFrame where
  columns : List String
  rows : List (List Value)
deriving DecidableEq, Repr

/-- `DataFrame.head n`: the same columns with only the first `n` rows,
as in pandas `data.head(n)` (truncating to the available rows). -/
def DataFrame.head (df : DataFrame) (n : Nat) : DataFrame :=
  ⟨df.columns, df.rows.take n⟩

/-- Ways the fetch can fail: network failure, an unavailable remote
resource, or a file that does not parse as the columnar format. -/
inductive FetchError where
  | networkError (msg : String)
  | httpError (status : Nat)
  | parseError (msg : String)
deriving DecidableEq, Repr

/-- One `print(...)` statement's observable effect on standard output. -/
inductive OutputEvent where
  | printTable (df : DataFrame)
  | printColumns (cols : List String)
deriving DecidableEq, Repr

/-- The hardcoded remote URL of `src/extractor/extract.py`, line 4. -/
def url : String :=
  "https://huggingface.co/datasets/electricsheepafrica/nigerian_energy_and_utilities_billing_payments/resolve/main/nigerian_energy_and_utilities_billing_payments.parquet"

/-- The Fetcher script, embedded statement by statement.
`read_parquet` is the oracle for `pd.read_parquet`: given a URL it either
returns the parsed dataset or fails (network / availability / parse error).
On failure the error propagates unhandled and no print statement runs;
on success the script prints `data.head(10)` and then `data.columns`.
Returns the stdout event list and the propagated error, if any. -/
def extract (read_parquet : String → Except FetchError DataFrame) :
    List OutputEvent × Option FetchError :=
  match read_parquet url with
  | .error e => ([], some e)
  | .ok data => ([.printTable (data.head 10), .printColumns data.columns], none)

/-! ## Connector data model (src/postgres/load.py) -/

/-- The process environment: a partial map from variable name to value. -/
def Env := String → Option String

/-- Model of `dotenv.load_dotenv()`: when a local `.env` file is present its
key=value pairs are loaded into the process environment, but—per the
library's default `override=False`—a key already set in the environment
keeps its pre-existing value; within the file, a later duplicate key wins.
When no file is present the environment is unchanged. -/
def load_dotenv (dotfile : Option (List (String × String))) (env : Env) : Env :=
  match dotfile with
  | none => env
  | some pairs => fun k =>
      match env k with
      | some v => some v
      | none => pairs.reverse.lookup k

/-- The five keyword parameters of the single `psycopg2.connect(...)` call,
each an optional raw string exactly as returned by `os.getenv`. -/
structure ConnParams where
  dbname : Option String
  host : Option String
  password : Option String
  user : Option String
  port : Option String
deriving DecidableEq, Repr

/-- Ways the connection attempt can fail inside the client library. -/
inductive ConnError where
  | unreachableHost
  | authenticationFailed
  | portNotListening
  | invalidPort (raw : String)
  | missingConfig (name : String)
  | other (msg : String)
deriving DecidableEq, Repr

/-- Observable events of a Connector run: the connect call with its exact
parameters, the session opening, any executed query, and the close. -/
inductive ConnEvent where
  | connectCalled (p : ConnParams)
  | opened
  | query (sql : String)
  | closed
deriving DecidableEq, Repr

/-- Lines 5–11 of `src/postgres/load.py`: `load_dotenv()` runs first, then
`os.getenv` is applied to exactly the five fixed names `DB_NAME`,
`DB_USERNAME`, `DB_PASSWORD`, `DB_HOST`, `DB_PORT`; the results are passed
verbatim as the connect keyword arguments. -/
def connector_params (env0 : Env) (dotfile : Option (List (String × String))) :
    ConnParams :=
  let env := load_dotenv dotfile env0
  { dbname := env "DB_NAME"
    host := env "DB_HOST"
    password := env "DB_PASSWORD"
    user := env "DB_USERNAME"
    port := env "DB_PORT" }

/-- The Connector script, embedded statement by statement. `connect` is the
oracle for `psycopg2.connect`: it is always invoked, with the unvalidated
parameters; if it fails the error propagates unhandled (no close); if it
succeeds the very next statement is `conn.close()`, with no query in
between. Returns the event trace and the propagated error, if any. -/
def connector_run (connect : ConnParams → Except ConnError Unit)
    (env0 : Env) (dotfile : Option (List (String × String))) :
    List ConnEvent × Option ConnError :=
  let p := connector_params env0 dotfile
  match connect p with
  | .error e => ([.connectCalled p], some e)
  | .ok _ => ([.connectCalled p, .opened, .closed], none)

/-! ## Persistent state across process invocations (for idempotence) -/

/-- Everything outside a single process invocation that could influence or
be influenced by a run: the remote file server, the local `.env` file, the
base process environment handed to a fresh process, and the database
server's response to a connection attempt. -/
structure World where
  remote : String → Except FetchError DataFrame
  dotfileContent : Option (List (String × String))
  baseEnv : Env
  dbServer : ConnParams → Except ConnError Unit

/-- One full process invocation of the Fetcher: it only reads the remote
file and prints; none of its statements writes to any persistent state, so
the world after the run is the world before it. -/
def runFetcherProcess (w : World) :
    (List OutputEvent × Option FetchError) × World :=
  (extract w.remote, w)

/-- One full process invocation of the Connector: `load_dotenv` mutates
only the process-local environment (discarded at exit), and the connection
is opened and closed without any query; no persistent state changes. -/
def runConnectorProcess (w : World) :
    (List ConnEvent × Option ConnError) × World :=
  (connector_run w.dbServer w.baseEnv w.dotfileContent, w)

/-- The five environment variable names read by the Connector, in the
order the source reads them. -/
def connectorEnvNames : List String :=
  ["DB_NAME", "DB_USERNAME", "DB_PASSWORD", "DB_HOST", "DB_PORT"]

/-! ## Concrete instances used by witnesses -/

/-- A concrete dataset with 12 rows, for exercising the 10-row preview. -/
def dfTwelve : DataFrame :=
  ⟨["bill_id", "amount_due"],
   (List.range 12).map fun i => [Value.num (Int.ofNat i), Value.num (Int.ofNat (100 * i))]⟩

/-- A concrete dataset with 3 rows, fewer than the preview size. -/
def dfThree : DataFrame :=
  ⟨["bill_id", "amount_due"],
   [[Value.num 0, Value.num 0], [Value.num 1, Value.num 100], [Value.num 2, Value.num 200]]⟩

/-- A concrete environment with all five DB variables set, plus an
unrelated variable. -/
def envA : Env := fun k =>
  if k = "DB_NAME" then some "billing" else
  if k = "DB_USERNAME" then some "alice" else
  if k = "DB_PASSWORD" then some "s3cret" else
  if k = "DB_HOST" then some "db.example.com" else
  if k = "DB_PORT" then some "5432" else
  if k = "HOME" then some "/home/alice" else none

/-- An environment agreeing with `envA` on the five DB variables but
differing elsewhere. -/
def envB : Env := fun k =>
  if k = "DB_NAME" then some "billing" else
  if k = "DB_USERNAME" then some "alice" else
  if k = "DB_PASSWORD" then some "s3cret" else
  if k = "DB_HOST" then some "db.example.com" else
  if k = "DB_PORT" then some "5432" else
  if k = "PATH" then some "/usr/bin" else none

/-- An empty process environment: every variable unset. -/
def emptyEnv : Env := fun _ => none

/-- A concrete `.env` file content that conflicts with `envA` on two keys. -/
def dotfileW : List (String × String) :=
  [("DB_HOST", "dotfile-host"), ("DB_PORT", "9999")]

/-- A concrete model of a client library that requires a database name:
the attempt fails when `dbname` is absent and succeeds otherwise. -/
def connectRequiringConfigW : ConnParams → Except ConnError Unit := fun p =>
  match p.dbname with
  | none => .error (.missingConfig "DB_NAME")
  | some _ => .ok ()

/-! ## Claim theorems: Fetcher -/

/-- Claim C1: when the fetch succeeds with a table of at least 10 rows, the
Fetcher writes to standard output exactly the first 10 rows of the table
(in dataset order, formatted as a table) followed by the full column
listing of the source file, and nothing else; no error occurs. -/
theorem extract_success_prints_ten_rows_then_columns
    (read_parquet : String → Except FetchError DataFrame) (df : DataFrame)
    (hok : read_parquet url = .ok df) (hN : 10 ≤ df.rows.length) :
    extract read_parquet =
      ([.printTable ⟨df.columns, df.rows.take 10⟩, .printColumns df.columns], none)
    ∧ (df.rows.take 10).length = 10
    ∧ df.rows.take 10 ++ df.rows.drop 10 = df.rows := by
  refine ⟨?_, ?_, List.take_append_drop 10 df.rows⟩
  · unfold extract
    rw [hok]
    rfl
  · rw [List.length_take]
    exact Nat.min_eq_left hN

/-- Witness for C1 at a concrete 12-row dataset. -/
theorem extract_success_prints_ten_rows_then_columns_witness :
    ((fun _ : String => (Except.ok dfTwelve : Except FetchError DataFrame)) url
      = .ok dfTwelve)
    ∧ 10 ≤ dfTwelve.rows.length
    ∧ (extract (fun _ => .ok dfTwelve) =
        ([.printTable ⟨dfTwelve.columns, dfTwelve.rows.take 10⟩,
          .printColumns dfTwelve.columns], none)
      ∧ (dfTwelve.rows.take 10).length = 10
      ∧ dfTwelve.rows.take 10 ++ dfTwelve.rows.drop 10 = dfTwelve.rows) :=
  ⟨rfl, by decide,
   extract_success_prints_ten_rows_then_columns _ dfTwelve rfl (by decide)⟩

/-- Claim C2: when the fetch fails (network failure, unavailable resource,
or a file that does not parse as the columnar format), the error propagates
unhandled and the Fetcher prints nothing: no row preview and no column
listing appear on standard output. -/
theorem extract_failure_propagates_and_prints_nothing
    (read_parquet : String → Except FetchError DataFrame) (e : FetchError)
    (herr : read_parquet url = .error e) :
    extract read_parquet = ([], some e) := by
  unfold extract
  rw [herr]

/-- Witness for C2 at a concrete network failure. -/
theorem extract_failure_propagates_and_prints_nothing_witness :
    ((fun _ : String =>
        (Except.error (FetchError.networkError "connection refused") :
          Except FetchError DataFrame)) url
      = .error (.networkError "connection refused"))
    ∧ extract (fun _ => .error (.networkError "connection refused"))
      = ([], some (.networkError "connection refused")) :=
  ⟨rfl, extract_failure_propagates_and_prints_nothing _ _ rfl⟩

/-- Claim C8: when the fetched table has fewer than 10 rows (including 0),
the Fetcher does not fail: the preview truncates safely to all available
rows and the full column listing is still printed. -/
theorem extract_short_table_prints_all_rows
    (read_parquet : String → Except FetchError DataFrame) (df : DataFrame)
    (hok : read_parquet url = .ok df) (hN : df.rows.length < 10) :
    extract read_parquet =
      ([.printTable ⟨df.columns, df.rows⟩, .printColumns df.columns], none) := by
  unfold extract
  rw [hok]
  have h : df.rows.take 10 = df.rows := List.take_of_length_le (Nat.le_of_lt hN)
  simp [DataFrame.head, h]

/-- Witness for C8 at a concrete 3-row dataset. -/
theorem extract_short_table_prints_all_rows_witness :
    ((fun _ : String => (Except.ok dfThree : Except FetchError DataFrame)) url
      = .ok dfThree)
    ∧ dfThree.rows.length < 10
    ∧ extract (fun _ => .ok dfThree)
      = ([.printTable ⟨dfThree.columns, dfThree.rows⟩,
          .printColumns dfThree.columns], none) :=
  ⟨rfl, by decide, extract_short_table_prints_all_rows _ dfThree rfl (by decide)⟩

/-! ## Claim theorems: Connector -/

/-- Claim C3: the Connector loads the local environment file first and only
then reads exactly the five fixed names DB_NAME, DB_USERNAME, DB_PASSWORD,
DB_HOST, DB_PORT: each connection parameter is the post-load environment's
value at its fixed name, and any two configurations whose post-load
environments agree on those five names yield identical connection
parameters, so no other configuration source is consulted and the names
are not configurable. -/
theorem connector_reads_exactly_five_fixed_names
    (env0 : Env) (dotfile : Option (List (String × String))) :
    ((connector_params env0 dotfile).dbname = load_dotenv dotfile env0 "DB_NAME"
     ∧ (connector_params env0 dotfile).user = load_dotenv dotfile env0 "DB_USERNAME"
     ∧ (connector_params env0 dotfile).password = load_dotenv dotfile env0 "DB_PASSWORD"
     ∧ (connector_params env0 dotfile).host = load_dotenv dotfile env0 "DB_HOST"
     ∧ (connector_params env0 dotfile).port = load_dotenv dotfile env0 "DB_PORT")
    ∧ ∀ (env1 : Env) (dotfile1 : Option (List (String × String))),
        (∀ k ∈ connectorEnvNames,
          load_dotenv dotfile env0 k = load_dotenv dotfile1 env1 k) →
        connector_params env0 dotfile = connector_params env1 dotfile1 := by
  refine ⟨⟨rfl, rfl, rfl, rfl, rfl⟩, ?_⟩
  intro env1 f1 h
  have h1 := h "DB_NAME" (by simp [connectorEnvNames])
  have h2 := h "DB_USERNAME" (by simp [connectorEnvNames])
  have h3 := h "DB_PASSWORD" (by simp [connectorEnvNames])
  have h4 := h "DB_HOST" (by simp [connectorEnvNames])
  have h5 := h "DB_PORT" (by simp [connectorEnvNames])
  simp [connector_params, h1, h2, h3, h4, h5]

/-- Witness for C3: two concrete environments differing outside the five
names yield identical connection parameters. -/
theorem connector_reads_exactly_five_fixed_names_witness :
    (∀ k ∈ connectorEnvNames, load_dotenv none envA k = load_dotenv none envB k)
    ∧ connector_params envA none = connector_params envB none := by
  have h : ∀ k ∈ connectorEnvNames,
      load_dotenv none envA k = load_dotenv none envB k := by decide
  exact ⟨h, (connector_reads_exactly_five_fixed_names envA none).2 envB none h⟩

/-- Claim C4: the Connector validates none of the five fields: the connect
call is always the first event of the trace, and each parameter is exactly
the raw environment lookup (absent variables yield `none`), passed through
unchanged to the single connection attempt. -/
theorem connector_passes_params_unvalidated
    (connect : ConnParams → Except ConnError Unit)
    (env0 : Env) (dotfile : Option (List (String × String))) :
    (connector_run connect env0 dotfile).1.head?
      = some (.connectCalled (connector_params env0 dotfile))
    ∧ (connector_params env0 dotfile).dbname = load_dotenv dotfile env0 "DB_NAME"
    ∧ (connector_params env0 dotfile).user = load_dotenv dotfile env0 "DB_USERNAME"
    ∧ (connector_params env0 dotfile).password = load_dotenv dotfile env0 "DB_PASSWORD"
    ∧ (connector_params env0 dotfile).host = load_dotenv dotfile env0 "DB_HOST"
    ∧ (connector_params env0 dotfile).port = load_dotenv dotfile env0 "DB_PORT" := by
  refine ⟨?_, rfl, rfl, rfl, rfl, rfl⟩
  cases h : connect (connector_params env0 dotfile) <;>
    simp [connector_run, h]

/-- Claim C5: on a successful connection attempt the handle is released
exactly once before process exit, with zero database operations between
open and close; on a failed attempt no close happens. The trace is either
the failed call alone or call-open-close. -/
theorem connection_closed_exactly_once_no_queries
    (connect : ConnParams → Except ConnError Unit)
    (env0 : Env) (dotfile : Option (List (String × String))) :
    ((connector_run connect env0 dotfile).1
        = [.connectCalled (connector_params env0 dotfile), .opened, .closed]
      ∨ (connector_run connect env0 dotfile).1
        = [.connectCalled (connector_params env0 dotfile)])
    ∧ (connector_run connect env0 dotfile).1.count .closed
        = (if (connector_run connect env0 dotfile).2 = none then 1 else 0)
    ∧ (∀ sql, ConnEvent.query sql ∉ (connector_run connect env0 dotfile).1) := by
  cases h : connect (connector_params env0 dotfile) <;>
    simp [connector_run, h, List.count_cons]

/-- Claim C6: when the configuration makes the single connection attempt
fail (as an unset or incorrect variable does whenever the client library
requires it), the error propagates and the process terminates before the
close step: the trace stops at the failed connect call and contains no
close event. -/
theorem failed_connect_terminates_before_close
    (connect : ConnParams → Except ConnError Unit)
    (env0 : Env) (dotfile : Option (List (String × String))) (e : ConnError)
    (hfail : connect (connector_params env0 dotfile) = .error e) :
    connector_run connect env0 dotfile
        = ([.connectCalled (connector_params env0 dotfile)], some e)
    ∧ ConnEvent.closed ∉ (connector_run connect env0 dotfile).1 := by
  constructor <;> simp [connector_run, hfail]

/-- Witness for C6: with every variable unset and a client requiring the
database name, the run errors out and never reaches the close. -/
theorem failed_connect_terminates_before_close_witness :
    connectRequiringConfigW (connector_params emptyEnv none)
      = .error (.missingConfig "DB_NAME")
    ∧ (connector_run connectRequiringConfigW emptyEnv none
        = ([.connectCalled (connector_params emptyEnv none)],
           some (.missingConfig "DB_NAME"))
      ∧ ConnEvent.closed ∉ (connector_run connectRequiringConfigW emptyEnv none).1) :=
  ⟨rfl, failed_connect_terminates_before_close _ emptyEnv none _ rfl⟩

/-- Claim C9: loading the local environment file does not override
variables already set in the process environment: any pre-existing value
takes precedence, so for each of the five DB variables a value set before
the run is the one the Connector reads afterwards. -/
theorem preexisting_env_takes_precedence_over_dotfile
    (env0 : Env) (pairs : List (String × String)) :
    (∀ k v, env0 k = some v → load_dotenv (some pairs) env0 k = some v)
    ∧ (∀ v, env0 "DB_NAME" = some v →
        (connector_params env0 (some pairs)).dbname = some v)
    ∧ (∀ v, env0 "DB_USERNAME" = some v →
        (connector_params env0 (some pairs)).user = some v)
    ∧ (∀ v, env0 "DB_PASSWORD" = some v →
        (connector_params env0 (some pairs)).password = some v)
    ∧ (∀ v, env0 "DB_HOST" = some v →
        (connector_params env0 (some pairs)).host = some v)
    ∧ (∀ v, env0 "DB_PORT" = some v →
        (connector_params env0 (some pairs)).port = some v) := by
  refine ⟨fun k v h => by simp [load_dotenv, h],
    fun v h => ?_, fun v h => ?_, fun v h => ?_, fun v h => ?_, fun v h => ?_⟩ <;>
    simp [connector_params, load_dotenv, h]

/-- Witness for C9: a pre-set DB_HOST survives a conflicting `.env` file. -/
theorem preexisting_env_takes_precedence_over_dotfile_witness :
    envA "DB_HOST" = some "db.example.com"
    ∧ (connector_params envA (some dotfileW)).host = some "db.example.com" :=
  ⟨by decide,
   (preexisting_env_takes_precedence_over_dotfile envA dotfileW).2.2.2.2.1
     "db.example.com" (by decide)⟩

/-- Claim C10: the port is passed to the connection attempt as the raw
string read from the environment, with no parsing to a number and no
rejection by the script itself; a run errors exactly when the connection
attempt itself fails, never before it. -/
theorem port_passed_raw_errors_only_from_connect
    (connect : ConnParams → Except ConnError Unit)
    (env0 : Env) (dotfile : Option (List (String × String))) :
    (connector_params env0 dotfile).port = load_dotenv dotfile env0 "DB_PORT"
    ∧ ∀ e, (connector_run connect env0 dotfile).2 = some e
            ↔ connect (connector_params env0 dotfile) = .error e := by
  refine ⟨rfl, fun e => ?_⟩
  cases h : connect (connector_params env0 dotfile) <;>
    simp [connector_run, h]

/-- Claim C7: neither script accumulates state: a full process invocation
leaves the persistent world (remote file, `.env` file, base environment,
database server) unchanged, so a second run with unchanged inputs produces
output equal to the first run's, for both the Fetcher and the Connector. -/
theorem repeated_runs_equivalent (w : World) :
    (runFetcherProcess w).2 = w
    ∧ (runConnectorProcess w).2 = w
    ∧ (runFetcherProcess ((runFetcherProcess w).2)).1 = (runFetcherProcess w).1
    ∧ (runConnectorProcess ((runConnectorProcess w).2)).1 = (runConnectorProcess w).1 :=
  ⟨rfl, rfl, rfl, rfl⟩

end EnergyBilling
